import Mathlib

/-!
Verification of the agent-registry module of the refactoring-swarm repository
(`src/agent_registry.py`), shallowly embedded in Lean 4.

The registry owns a Python `dict` mapping agent names to opaque agent
instances plus an `_initialized` flag.  We model the dict as an association
list that preserves Python dict insertion-order semantics (re-inserting an
existing key keeps its position), agent instances as an arbitrary type `α`,
Python exceptions as a small inductive type, `log_experiment` calls as a list
of structured log entries, and `print` calls as a list of console lines.
-/

namespace RefactoringSwarm

/-- Python exceptions relevant to the registry.  `valueError` is the
`ValueError` raised when `GOOGLE_API_KEY` is missing (the spec calls this
`ConfigurationError`); `runtimeError` is the `RuntimeError` raised by
`get_agent` before initialization (the spec calls this `NotInitializedError`);
`otherError` stands for whatever exception an agent constructor raises. -/
inductive PyError : Type where
  | valueError : String → PyError
  | runtimeError : String → PyError
  | otherError : String → PyError
  deriving DecidableEq, Repr

/-- `str(e)` on a Python exception: its message. -/
def PyError.str : PyError → String
  | PyError.valueError m => m
  | PyError.runtimeError m => m
  | PyError.otherError m => m

/-- The `ActionType` tags used by the registry (from `src.utils.logger`). -/
inductive ActionType : Type where
  | ANALYSIS : ActionType
  | DEBUG : ActionType
  deriving DecidableEq, Repr

/-- One `log_experiment(...)` call: the record fields passed by the registry. -/
structure LogEntry : Type where
  agent_name : String
  model_used : String
  action : ActionType
  input_prompt : String
  output_response : String
  deriving DecidableEq, Repr

/-- Python dict insertion (`d[k] = v`): replacing an existing key keeps its
position in the iteration order; a new key goes to the end. -/
def dictInsert {α : Type} (k : String) (v : α) : List (String × α) → List (String × α)
  | [] => [(k, v)]
  | (k', v') :: rest =>
    if k' = k then (k, v) :: rest else (k', v') :: dictInsert k v rest

/-- Python `d.get(k)`: `some` the bound value, or `none` when absent. -/
def dictGet {α : Type} (k : String) : List (String × α) → Option α
  | [] => none
  | (k', v') :: rest => if k' = k then some v' else dictGet k rest

/-- Python ASCII lower-casing of a character (`str.lower()` per character);
the registry only ever compares ASCII agent names. -/
def charLower (c : Char) : Char :=
  if 65 ≤ c.toNat ∧ c.toNat ≤ 90 then Char.ofNat (c.toNat + 32) else c

/-- Python `s.lower()` on the ASCII agent names used by the registry. -/
def strLower (s : String) : String := ⟨s.data.map charLower⟩

/-- Python truthiness test `not api_key` for `os.getenv` results: `None` and
the empty string are falsy. -/
def strFalsy : Option String → Bool
  | none => true
  | some s => s = ""

/-- The state of an `AgentRegistry` object: the `_agents` dict and the
`_initialized` flag. -/
structure AgentRegistry (α : Type) : Type where
  agents : List (String × α)
  initialized : Bool
  deriving DecidableEq, Repr

/-- `AgentRegistry.__init__`: empty dict, flag false. -/
def AgentRegistry.new (α : Type) : AgentRegistry α := ⟨[], false⟩

/-- The environment one `initialize()` call runs in: the `GOOGLE_API_KEY`
value (`none` = unset) and the outcome of each of the three no-argument
agent constructions, which are fallible external collaborators. -/
structure InitEnv (α : Type) : Type where
  apiKey : Option String
  auditorCtor : Except PyError α
  fixerCtor : Except PyError α
  judgeCtor : Except PyError α

/-- Result of one registry operation: the updated object state, the
`log_experiment` entries emitted, the `print` lines emitted, and the
returned value or propagated exception. -/
structure OpResult (σ ρ : Type) : Type where
  state : σ
  logs : List LogEntry
  console : List String
  result : Except PyError ρ
  deriving Repr

/-- The `ValueError` raised when `GOOGLE_API_KEY` is missing. -/
def configError : PyError :=
  PyError.valueError "GOOGLE_API_KEY not found in environment variables"

/-- The `RuntimeError` raised by `get_agent` on an uninitialized registry. -/
def notInitializedError : PyError :=
  PyError.runtimeError "Agent registry not initialized. Call initialize() first."

/-- Renders a list of names the way the diagnostics render
`list(self._agents.keys())` (quoting elided). -/
def formatNames : List String → String
  | [] => "[]"
  | n :: rest => "[" ++ n ++ String.join (rest.map (fun m => ", " ++ m)) ++ "]"

def alreadyInitLine : String := "⚠️  Agent registry already initialized"

def initStartLine : String := "🔧 Initializing Agent Registry..."

def loadAuditorLine : String := "  📋 Loading Auditor Agent..."

def loadFixerLine : String := "  🔧 Loading Fixer Agent..."

def loadJudgeLine : String := "  ⚖️  Loading Judge Agent..."

def initErrorLine (e : PyError) : String :=
  "❌ Error initializing agent registry: " ++ e.str

def initDoneLine (n : Nat) : String :=
  "✅ Agent Registry initialized with " ++ toString n ++ " agents"

/-- The `ActionType.DEBUG` log entry emitted when `initialize` fails. -/
def initFailLog (e : PyError) : LogEntry :=
  { agent_name := "AgentRegistry"
    model_used := "N/A"
    action := ActionType.DEBUG
    input_prompt := "Agent registry initialization"
    output_response := "Failed to initialize: " ++ e.str }

/-- The `ActionType.ANALYSIS` log entry emitted when `initialize` succeeds. -/
def initSuccessLog {α : Type} (agents : List (String × α)) : LogEntry :=
  { agent_name := "AgentRegistry"
    model_used := "N/A"
    action := ActionType.ANALYSIS
    input_prompt := "Agent registry initialization"
    output_response := "Successfully loaded " ++ toString agents.length
      ++ " agents: " ++ formatNames (agents.map Prod.fst) }

/-- `AgentRegistry.initializeReg`: skip (with a console warning) when already
initialized; otherwise check the API key, construct auditor, fixer, judge in
that order inserting each as it succeeds, set the flag only on full success;
on any failure log one DEBUG entry and re-raise the same exception with no
rollback of agents already inserted. -/
def AgentRegistry.initializeReg {α : Type} (env : InitEnv α) (r : AgentRegistry α) :
    OpResult (AgentRegistry α) Unit :=
  if r.initialized then
    ⟨r, [], [alreadyInitLine], Except.ok ()⟩
  else if strFalsy env.apiKey then
    ⟨r, [initFailLog configError], [initStartLine, initErrorLine configError],
      Except.error configError⟩
  else
    match env.auditorCtor with
    | Except.error e =>
      ⟨r, [initFailLog e], [initStartLine, loadAuditorLine, initErrorLine e],
        Except.error e⟩
    | Except.ok a =>
      let ag1 := dictInsert "auditor" a r.agents
      match env.fixerCtor with
      | Except.error e =>
        ⟨⟨ag1, false⟩, [initFailLog e],
          [initStartLine, loadAuditorLine, loadFixerLine, initErrorLine e],
          Except.error e⟩
      | Except.ok f =>
        let ag2 := dictInsert "fixer" f ag1
        match env.judgeCtor with
        | Except.error e =>
          ⟨⟨ag2, false⟩, [initFailLog e],
            [initStartLine, loadAuditorLine, loadFixerLine, loadJudgeLine,
              initErrorLine e],
            Except.error e⟩
        | Except.ok j =>
          let ag3 := dictInsert "judge" j ag2
          ⟨⟨ag3, true⟩, [initSuccessLog ag3],
            [initStartLine, loadAuditorLine, loadFixerLine, loadJudgeLine,
              initDoneLine ag3.length],
            Except.ok ()⟩

def agentNotFoundLine (name : String) : String :=
  "⚠️  Agent " ++ name ++ " not found in registry"

def availableAgentsLine (names : List String) : String :=
  "   Available agents: " ++ formatNames names

/-- Result of a `get_agent` call: the returned value (or raised exception)
and the console diagnostics; the registry state is never modified. -/
structure GetResult (α : Type) : Type where
  result : Except PyError (Option α)
  console : List String
  deriving Repr

/-- `AgentRegistry.get_agent`: raise `RuntimeError` when not initialized;
otherwise look up the lower-cased name, returning `none` (after two
diagnostic lines) when absent. -/
def AgentRegistry.get_agent {α : Type} (name : String) (r : AgentRegistry α) :
    GetResult α :=
  if r.initialized then
    match dictGet (strLower name) r.agents with
    | none =>
      ⟨Except.ok none,
        [agentNotFoundLine name, availableAgentsLine (r.agents.map Prod.fst)]⟩
    | some a => ⟨Except.ok (some a), []⟩
  else
    ⟨Except.error notInitializedError, []⟩

/-- `AgentRegistry.get_auditor`: fixed-name wrapper over `get_agent`. -/
def AgentRegistry.get_auditor {α : Type} (r : AgentRegistry α) : GetResult α :=
  AgentRegistry.get_agent "auditor" r

/-- `AgentRegistry.get_fixer`: fixed-name wrapper over `get_agent`. -/
def AgentRegistry.get_fixer {α : Type} (r : AgentRegistry α) : GetResult α :=
  AgentRegistry.get_agent "fixer" r

/-- `AgentRegistry.get_judge`: fixed-name wrapper over `get_agent`. -/
def AgentRegistry.get_judge {α : Type} (r : AgentRegistry α) : GetResult α :=
  AgentRegistry.get_agent "judge" r

/-- `AgentRegistry.list_agents`: `list(self._agents.keys())`. -/
def AgentRegistry.list_agents {α : Type} (r : AgentRegistry α) : List String :=
  r.agents.map Prod.fst

/-- `AgentRegistry.is_initialized`. -/
def AgentRegistry.is_initialized {α : Type} (r : AgentRegistry α) : Bool :=
  r.initialized

def shutdownStartLine : String := "🛑 Shutting down Agent Registry..."

def shutdownDoneLine : String := "✅ Agent Registry shutdown complete"

/-- The `ActionType.ANALYSIS` log entry emitted by a non-trivial `shutdown`. -/
def shutdownLog : LogEntry :=
  { agent_name := "AgentRegistry"
    model_used := "N/A"
    action := ActionType.ANALYSIS
    input_prompt := "Agent registry shutdown"
    output_response := "All agents released and registry cleared" }

/-- `AgentRegistry.shutdown`: return immediately when not initialized;
otherwise clear the dict, reset the flag, print two lines and log once. -/
def AgentRegistry.shutdown {α : Type} (r : AgentRegistry α) :
    OpResult (AgentRegistry α) Unit :=
  if r.initialized then
    ⟨⟨[], false⟩, [shutdownLog], [shutdownStartLine, shutdownDoneLine],
      Except.ok ()⟩
  else
    ⟨r, [], [], Except.ok ()⟩

/-- The module-level singleton state: `_registry_instance`, an optional
reference to a registry.  Reference identity is modelled by tagging each
allocated registry with a fresh id drawn from `nextId`. -/
structure GlobalState (α : Type) : Type where
  registry : Option (Nat × AgentRegistry α)
  nextId : Nat

/-- `get_registry()`: return the existing shared instance, or allocate a
fresh un-initialized one, store it, and return it; never calls
`initialize`. Returns the updated global state and the id of the returned
instance. -/
def get_registry {α : Type} (g : GlobalState α) : GlobalState α × Nat :=
  match g.registry with
  | some (i, _) => (g, i)
  | none =>
    (⟨some (g.nextId, AgentRegistry.new α), g.nextId + 1⟩, g.nextId)

/-- One call in a client-visible call sequence on a registry object. -/
inductive Op (α : Type) : Type where
  | initOp : InitEnv α → Op α
  | getAgentOp : String → Op α
  | getAuditorOp : Op α
  | getFixerOp : Op α
  | getJudgeOp : Op α
  | listAgentsOp : Op α
  | isInitializedOp : Op α
  | shutdownOp : Op α

/-- The state transition of one call: only `initialize` and `shutdown`
mutate the registry; all lookups and queries leave it unchanged. -/
def AgentRegistry.step {α : Type} (r : AgentRegistry α) : Op α → AgentRegistry α
  | Op.initOp env => (AgentRegistry.initializeReg env r).state
  | Op.shutdownOp => (AgentRegistry.shutdown r).state
  | _ => r

/-- The state reached from a freshly constructed registry after a sequence
of calls. -/
def AgentRegistry.run {α : Type} (ops : List (Op α)) : AgentRegistry α :=
  ops.foldl AgentRegistry.step (AgentRegistry.new α)

/-- An `initialize` environment in which the first (auditor) construction
succeeding guarantees the other two succeed as well, i.e. no construction
failure happens after an agent has already been stored. -/
def noMidFailure {α : Type} (env : InitEnv α) : Prop :=
  (∃ a, env.auditorCtor = Except.ok a) →
    (∃ f, env.fixerCtor = Except.ok f) ∧ (∃ j, env.judgeCtor = Except.ok j)

/-- A call that cannot strand partially constructed agents: any call other
than `initialize`, or an `initialize` whose environment satisfies
`noMidFailure`. -/
def goodOp {α : Type} : Op α → Prop
  | Op.initOp env => noMidFailure env
  | _ => True

/-- Helper: `get_agent` on an initialized registry returns the value bound
to the lower-cased name (possibly `none`), never an error. -/
theorem get_agent_result_initialized {α : Type} (r : AgentRegistry α)
    (name : String) (h : r.initialized = true) :
    (r.get_agent name).result = Except.ok (dictGet (strLower name) r.agents) := by
  unfold AgentRegistry.get_agent
  rw [h]
  cases hd : dictGet (strLower name) r.agents <;> simp [hd]

/-- Helper: `get_agent` on an uninitialized registry raises the
not-initialized `RuntimeError` and prints nothing. -/
theorem get_agent_result_uninitialized {α : Type} (r : AgentRegistry α)
    (name : String) (h : r.initialized = false) :
    r.get_agent name = ⟨Except.error notInitializedError, []⟩ := by
  unfold AgentRegistry.get_agent
  rw [h]
  simp

/-- Helper: `initialize` on an already-initialized registry is a skip:
state untouched, no log entry, one warning line, normal return. -/
theorem initialize_already {α : Type} (env : InitEnv α) (r : AgentRegistry α)
    (h : r.initialized = true) :
    AgentRegistry.initializeReg env r = ⟨r, [], [alreadyInitLine], Except.ok ()⟩ := by
  simp [AgentRegistry.initializeReg, h]

/-- Helper: inserting a key then looking it up yields the inserted value. -/
theorem dictGet_dictInsert_self {α : Type} (k : String) (v : α)
    (l : List (String × α)) : dictGet k (dictInsert k v l) = some v := by
  induction l with
  | nil => simp [dictInsert, dictGet]
  | cons hd tl ih =>
    cases hd with
    | mk k' v' =>
      by_cases hkk : k' = k
      · simp [dictInsert, dictGet, hkk]
      · simp [dictInsert, dictGet, hkk, ih]

/-- Helper: inserting one key does not change lookups of another key. -/
theorem dictGet_dictInsert_of_ne {α : Type} (k k' : String) (hne : k' ≠ k)
    (v : α) (l : List (String × α)) :
    dictGet k (dictInsert k' v l) = dictGet k l := by
  induction l with
  | nil => simp [dictInsert, dictGet, hne]
  | cons hd tl ih =>
    cases hd with
    | mk k0 v0 =>
      by_cases h0 : k0 = k'
      · subst h0
        simp [dictInsert, dictGet, hne]
      · simp [dictInsert, dictGet, h0, ih]

/-- C2: any of the four getters raises `NotInitializedError` exactly when
the registry is uninitialized; when initialized, `get_agent` returns
normally. -/
theorem getters_notInitializedError_iff {α : Type} (r : AgentRegistry α)
    (name : String) :
    ((r.get_agent name).result = Except.error notInitializedError ↔
      r.initialized = false)
  ∧ (r.get_auditor.result = Except.error notInitializedError ↔
      r.initialized = false)
  ∧ (r.get_fixer.result = Except.error notInitializedError ↔
      r.initialized = false)
  ∧ (r.get_judge.result = Except.error notInitializedError ↔
      r.initialized = false)
  ∧ (r.initialized = true → ∃ v, (r.get_agent name).result = Except.ok v) := by
  cases hi : r.initialized with
  | false =>
    rw [AgentRegistry.get_auditor, AgentRegistry.get_fixer,
      AgentRegistry.get_judge, get_agent_result_uninitialized r name hi,
      get_agent_result_uninitialized r "auditor" hi,
      get_agent_result_uninitialized r "fixer" hi,
      get_agent_result_uninitialized r "judge" hi]
    simp
  | true =>
    rw [AgentRegistry.get_auditor, AgentRegistry.get_fixer,
      AgentRegistry.get_judge, get_agent_result_initialized r name hi,
      get_agent_result_initialized r "auditor" hi,
      get_agent_result_initialized r "fixer" hi,
      get_agent_result_initialized r "judge" hi]
    simp

/-- C2 witness: on a fresh registry, `get_agent` raises the
not-initialized error. -/
theorem getters_notInitializedError_iff_witness :
    (((AgentRegistry.new Nat).get_agent "x").result =
        Except.error notInitializedError ↔
      (AgentRegistry.new Nat).initialized = false)
  ∧ ((AgentRegistry.new Nat).get_auditor.result =
        Except.error notInitializedError ↔
      (AgentRegistry.new Nat).initialized = false)
  ∧ ((AgentRegistry.new Nat).get_fixer.result =
        Except.error notInitializedError ↔
      (AgentRegistry.new Nat).initialized = false)
  ∧ ((AgentRegistry.new Nat).get_judge.result =
        Except.error notInitializedError ↔
      (AgentRegistry.new Nat).initialized = false)
  ∧ ((AgentRegistry.new Nat).initialized = true →
      ∃ v, ((AgentRegistry.new Nat).get_agent "x").result = Except.ok v) :=
  getters_notInitializedError_iff (AgentRegistry.new Nat) "x"

/-- C3: if a construction fails during `initialize` on an uninitialized
registry with the credential present, the same exception propagates, the
flag is never set, and the agents inserted earlier in the attempt remain
in the dict (no rollback). -/
theorem initialize_construction_failure {α : Type} (env : InitEnv α)
    (r : AgentRegistry α) (h : r.initialized = false)
    (hk : strFalsy env.apiKey = false) :
    (∀ e, env.auditorCtor = Except.error e →
      AgentRegistry.initializeReg env r =
        ⟨r, [initFailLog e], [initStartLine, loadAuditorLine, initErrorLine e],
          Except.error e⟩)
  ∧ (∀ a e, env.auditorCtor = Except.ok a → env.fixerCtor = Except.error e →
      AgentRegistry.initializeReg env r =
        ⟨⟨dictInsert "auditor" a r.agents, false⟩, [initFailLog e],
          [initStartLine, loadAuditorLine, loadFixerLine, initErrorLine e],
          Except.error e⟩)
  ∧ (∀ a f e, env.auditorCtor = Except.ok a → env.fixerCtor = Except.ok f →
      env.judgeCtor = Except.error e →
      AgentRegistry.initializeReg env r =
        ⟨⟨dictInsert "fixer" f (dictInsert "auditor" a r.agents), false⟩,
          [initFailLog e],
          [initStartLine, loadAuditorLine, loadFixerLine, loadJudgeLine,
            initErrorLine e],
          Except.error e⟩) := by
  refine ⟨?_, ?_, ?_⟩ <;> intros <;>
    simp [AgentRegistry.initializeReg, h, hk, *]

/-- The exception thrown by the failing fixer construction in the witness
environment. -/
def boomErr : PyError := PyError.otherError "boom"

/-- A witness environment: key present, auditor construction succeeds,
fixer construction fails. -/
def fixerFailEnv : InitEnv Nat :=
  ⟨some "key", Except.ok 1, Except.error boomErr, Except.ok 3⟩

/-- C3 witness: with the fixer construction failing on a fresh registry,
the auditor remains stored, the flag stays false and the error propagates. -/
theorem initialize_construction_failure_witness :
    AgentRegistry.initializeReg fixerFailEnv (AgentRegistry.new Nat) =
      ⟨⟨[("auditor", 1)], false⟩, [initFailLog boomErr],
        [initStartLine, loadAuditorLine, loadFixerLine, initErrorLine boomErr],
        Except.error boomErr⟩ :=
  (initialize_construction_failure fixerFailEnv (AgentRegistry.new Nat)
    rfl (by decide)).2.1 1 boomErr rfl rfl

/-- C4: with the credential missing (falsy) on an uninitialized registry,
`initialize` raises the configuration `ValueError`, touches no agent, keeps
the flag false and records exactly one failure log entry. -/
theorem initialize_missing_credential {α : Type} (env : InitEnv α)
    (r : AgentRegistry α) (h : r.initialized = false)
    (hk : strFalsy env.apiKey = true) :
    AgentRegistry.initializeReg env r =
      ⟨r, [initFailLog configError],
        [initStartLine, initErrorLine configError], Except.error configError⟩
  ∧ (AgentRegistry.initializeReg env r).state.agents = r.agents
  ∧ (AgentRegistry.initializeReg env r).state.initialized = false
  ∧ (AgentRegistry.initializeReg env r).logs.length = 1 := by
  simp [AgentRegistry.initializeReg, h, hk]

/-- A witness environment with the credential unset and all constructions
able to succeed. -/
def missingKeyEnv : InitEnv Nat :=
  ⟨none, Except.ok 1, Except.ok 2, Except.ok 3⟩

/-- C4 witness: missing credential on a fresh registry. -/
theorem initialize_missing_credential_witness :
    AgentRegistry.initializeReg missingKeyEnv (AgentRegistry.new Nat) =
      ⟨AgentRegistry.new Nat, [initFailLog configError],
        [initStartLine, initErrorLine configError], Except.error configError⟩
  ∧ (AgentRegistry.initializeReg missingKeyEnv (AgentRegistry.new Nat)).state.agents
      = (AgentRegistry.new Nat).agents
  ∧ (AgentRegistry.initializeReg missingKeyEnv
      (AgentRegistry.new Nat)).state.initialized = false
  ∧ (AgentRegistry.initializeReg missingKeyEnv
      (AgentRegistry.new Nat)).logs.length = 1 :=
  initialize_missing_credential missingKeyEnv (AgentRegistry.new Nat) rfl rfl

/-- C8: a second `initialize` after one that left the registry initialized
is a skip: same state (mapping unchanged), no log entry, one warning line,
no exception. -/
theorem initialize_idempotent_by_skip {α : Type} (env1 env2 : InitEnv α)
    (r : AgentRegistry α)
    (h : (AgentRegistry.initializeReg env1 r).state.initialized = true) :
    AgentRegistry.initializeReg env2 (AgentRegistry.initializeReg env1 r).state =
      ⟨(AgentRegistry.initializeReg env1 r).state, [], [alreadyInitLine],
        Except.ok ()⟩ :=
  initialize_already env2 (AgentRegistry.initializeReg env1 r).state h

/-- A witness environment with the credential set and every construction
succeeding. -/
def goodEnv : InitEnv Nat :=
  ⟨some "key", Except.ok 1, Except.ok 2, Except.ok 3⟩

/-- C8 witness: re-running `initialize` after a successful one on a fresh
registry skips with a warning. -/
theorem initialize_idempotent_by_skip_witness :
    AgentRegistry.initializeReg goodEnv
        (AgentRegistry.initializeReg goodEnv (AgentRegistry.new Nat)).state =
      ⟨(AgentRegistry.initializeReg goodEnv (AgentRegistry.new Nat)).state, [],
        [alreadyInitLine], Except.ok ()⟩ :=
  initialize_idempotent_by_skip goodEnv goodEnv (AgentRegistry.new Nat)
    (by decide)

/-- Helper: every call that satisfies `goodOp` preserves the invariant
that an uninitialized registry has an empty dict. -/
theorem step_empty_of_uninitialized {α : Type} (r : AgentRegistry α)
    (op : Op α) (hop : goodOp op)
    (inv : r.initialized = false → r.agents = []) :
    (r.step op).initialized = false → (r.step op).agents = [] := by
  cases op with
  | initOp env =>
    simp only [AgentRegistry.step]
    cases hi : r.initialized with
    | true =>
      rw [initialize_already env r hi]
      intro hcon
      exact absurd (hi.symm.trans hcon) (by simp)
    | false =>
      have hag : r.agents = [] := inv hi
      cases hfal : strFalsy env.apiKey with
      | true =>
        simp [AgentRegistry.initializeReg, hi, hfal]
        exact hag
      | false =>
        cases ha : env.auditorCtor with
        | error e =>
          simp [AgentRegistry.initializeReg, hi, hfal, ha]
          exact hag
        | ok a =>
          obtain ⟨⟨f, hf⟩, ⟨j, hj⟩⟩ := hop ⟨a, ha⟩
          simp [AgentRegistry.initializeReg, hi, hfal, ha, hf, hj]
  | shutdownOp =>
    simp only [AgentRegistry.step, AgentRegistry.shutdown]
    cases hi : r.initialized with
    | true => simp
    | false =>
      simp
      intro _
      exact inv hi
  | getAgentOp name => exact inv
  | getAuditorOp => exact inv
  | getFixerOp => exact inv
  | getJudgeOp => exact inv
  | listAgentsOp => exact inv
  | isInitializedOp => exact inv

/-- An environment whose `initialize` fails mid-construction: key present,
auditor construction succeeds, fixer construction fails. -/
def midFailEnv : InitEnv Nat :=
  ⟨some "key", Except.ok 7, Except.error (PyError.otherError "boom"), Except.ok 9⟩

/-- C1 counterexample: after one `initialize` call whose fixer construction
fails, the registry is reachable, its flag is false, yet its dict is
non-empty (the auditor is left over), refuting the claimed invariant for
sequences that include failed `initialize` calls. -/
theorem uninitialized_empty_counterexample :
    (AgentRegistry.run [Op.initOp midFailEnv]).initialized = false
  ∧ (AgentRegistry.run [Op.initOp midFailEnv]).agents ≠ [] := by decide

/-- C1 amended: over every call sequence in which no `initialize` fails
after its auditor construction succeeded, whenever the flag is false the
dict is empty. -/
theorem uninitialized_empty_invariant {α : Type} (ops : List (Op α))
    (h : ∀ op ∈ ops, goodOp op) :
    (AgentRegistry.run ops).initialized = false →
      (AgentRegistry.run ops).agents = [] := by
  have key : ∀ (l : List (Op α)) (r : AgentRegistry α),
      (∀ op ∈ l, goodOp op) → (r.initialized = false → r.agents = []) →
      ((l.foldl AgentRegistry.step r).initialized = false →
        (l.foldl AgentRegistry.step r).agents = []) := by
    intro l
    induction l with
    | nil =>
      intro r _ inv
      simpa using inv
    | cons op rest ih =>
      intro r hall inv
      simp only [List.foldl]
      exact ih (r.step op) (fun o ho => hall o (List.mem_cons_of_mem _ ho))
        (step_empty_of_uninitialized r op (hall op (List.mem_cons_self _ _)) inv)
  exact key ops (AgentRegistry.new α) h (fun _ => rfl)

/-- C1 amended witness: a sequence with a credential-missing `initialize`,
a successful `initialize` and a `shutdown` ends uninitialized with an
empty dict. -/
theorem uninitialized_empty_invariant_witness :
    (AgentRegistry.run
        [Op.initOp missingKeyEnv, Op.initOp goodEnv, Op.shutdownOp]).agents
      = [] :=
  uninitialized_empty_invariant
    [Op.initOp missingKeyEnv, Op.initOp goodEnv, Op.shutdownOp]
    (by
      intro op hop
      rcases List.mem_cons.mp hop with h1 | h1
      · subst h1
        exact fun _ => ⟨⟨2, rfl⟩, ⟨3, rfl⟩⟩
      · rcases List.mem_cons.mp h1 with h2 | h2
        · subst h2
          exact fun _ => ⟨⟨2, rfl⟩, ⟨3, rfl⟩⟩
        · rcases List.mem_cons.mp h2 with h3 | h3
          · subst h3
            trivial
          · cases h3)
    (by decide)

/-- C5: on an initialized registry, `get_agent` looks up the lower-cased
name; the names AUDITOR and auditor resolve to the same bound instance;
an unrecognized name returns `none` without an error, after printing a
diagnostic that lists the currently available names. -/
theorem get_agent_case_insensitive {α : Type} (r : AgentRegistry α)
    (name : String) (h : r.initialized = true) :
    (r.get_agent name).result = Except.ok (dictGet (strLower name) r.agents)
  ∧ (r.get_agent "AUDITOR").result = (r.get_agent "auditor").result
  ∧ (dictGet (strLower name) r.agents = none →
      r.get_agent name =
        ⟨Except.ok none,
          [agentNotFoundLine name, availableAgentsLine r.list_agents]⟩) := by
  refine ⟨get_agent_result_initialized r name h, ?_, ?_⟩
  · rw [get_agent_result_initialized r "AUDITOR" h,
      get_agent_result_initialized r "auditor" h]
    have hlow : strLower "AUDITOR" = strLower "auditor" := by decide
    rw [hlow]
  · intro hd
    unfold AgentRegistry.get_agent
    rw [h]
    simp [hd, AgentRegistry.list_agents]

/-- A concrete initialized registry used as a witness. -/
def readyReg : AgentRegistry Nat :=
  ⟨[("auditor", 1), ("fixer", 2), ("judge", 3)], true⟩

/-- C5 witness: on a concrete initialized registry, lookups of a present
and an absent name behave as stated. -/
theorem get_agent_case_insensitive_witness :
    (readyReg.get_agent "nonexistent").result =
      Except.ok (dictGet (strLower "nonexistent") readyReg.agents)
  ∧ (readyReg.get_agent "AUDITOR").result =
      (readyReg.get_agent "auditor").result
  ∧ (dictGet (strLower "nonexistent") readyReg.agents = none →
      readyReg.get_agent "nonexistent" =
        ⟨Except.ok none,
          [agentNotFoundLine "nonexistent",
            availableAgentsLine readyReg.list_agents]⟩) :=
  get_agent_case_insensitive readyReg "nonexistent" rfl

/-- C6: a successful `initialize` on a freshly constructed registry yields
`list_agents` equal to auditor, fixer, judge in that order, and returns
normally. -/
theorem list_agents_after_initialize {α : Type} (env : InitEnv α) (a f j : α)
    (ha : env.auditorCtor = Except.ok a) (hf : env.fixerCtor = Except.ok f)
    (hj : env.judgeCtor = Except.ok j) (hk : strFalsy env.apiKey = false) :
    (AgentRegistry.initializeReg env (AgentRegistry.new α)).state.list_agents =
      ["auditor", "fixer", "judge"]
  ∧ (AgentRegistry.initializeReg env (AgentRegistry.new α)).result =
      Except.ok () := by
  simp [AgentRegistry.initializeReg, AgentRegistry.new, hk, ha, hf, hj,
    AgentRegistry.list_agents, dictInsert]

/-- C6 witness: the concrete all-succeeding environment on a fresh
registry. -/
theorem list_agents_after_initialize_witness :
    (AgentRegistry.initializeReg goodEnv (AgentRegistry.new Nat)).state.list_agents
      = ["auditor", "fixer", "judge"]
  ∧ (AgentRegistry.initializeReg goodEnv (AgentRegistry.new Nat)).result =
      Except.ok () :=
  list_agents_after_initialize goodEnv 1 2 3 rfl rfl rfl (by decide)

/-- C7: `shutdown` on an uninitialized registry changes nothing and emits
neither log entries nor console lines; on an initialized registry it clears
the dict, resets the flag and emits exactly one log entry; an immediately
repeated `shutdown` is always a no-op. -/
theorem shutdown_spec {α : Type} (r : AgentRegistry α) :
    (r.initialized = false → r.shutdown = ⟨r, [], [], Except.ok ()⟩)
  ∧ (r.initialized = true →
      r.shutdown =
        ⟨⟨[], false⟩, [shutdownLog], [shutdownStartLine, shutdownDoneLine],
          Except.ok ()⟩)
  ∧ r.shutdown.state.shutdown = ⟨r.shutdown.state, [], [], Except.ok ()⟩ := by
  cases hi : r.initialized <;> simp [AgentRegistry.shutdown, hi]

/-- C7 witness: shutting down a concrete initialized registry clears it
and logs once. -/
theorem shutdown_spec_witness :
    readyReg.shutdown =
      ⟨⟨[], false⟩, [shutdownLog], [shutdownStartLine, shutdownDoneLine],
        Except.ok ()⟩ :=
  (shutdown_spec readyReg).2.1 rfl

/-- C9: `get_registry` returns the existing shared instance unchanged when
one exists; otherwise it allocates a fresh un-initialized registry, stores
it and returns it; two consecutive calls return the identical instance
(same id) and the second changes nothing. -/
theorem get_registry_singleton {α : Type} (g : GlobalState α) :
    (∀ i r, g.registry = some (i, r) → get_registry g = (g, i))
  ∧ (g.registry = none →
      get_registry g =
        (⟨some (g.nextId, AgentRegistry.new α), g.nextId + 1⟩, g.nextId))
  ∧ (get_registry (get_registry g).1).2 = (get_registry g).2
  ∧ (get_registry (get_registry g).1).1 = (get_registry g).1 := by
  cases hg : g.registry with
  | none => simp [get_registry, hg]
  | some p =>
    cases p with
    | mk i r =>
      refine ⟨?_, ?_, ?_, ?_⟩
      · intro i' r' h
        injection h with h
        injection h with h1 h2
        simp [get_registry, hg, h1]
      · intro h
        cases h
      · simp [get_registry, hg]
      · simp [get_registry, hg]

/-- C9 witness: starting from no shared instance, `get_registry` allocates
and stores a fresh un-initialized registry with the next id. -/
theorem get_registry_singleton_witness :
    get_registry (⟨none, 0⟩ : GlobalState Nat) =
      (⟨some (0, AgentRegistry.new Nat), 1⟩, 0) :=
  (get_registry_singleton (⟨none, 0⟩ : GlobalState Nat)).2.1 rfl

/-- C10: on a registry left uninitialized with a non-empty dict by a failed
`initialize`, `shutdown` changes nothing (no log, no console, leftovers
still visible through `list_agents`), and a later successful `initialize`
rebinds all three names to the newly constructed instances and sets the
flag. -/
theorem failed_initialize_leftovers {α : Type} (env : InitEnv α)
    (r : AgentRegistry α) (h : r.initialized = false) (hne : r.agents ≠ []) :
    r.shutdown = ⟨r, [], [], Except.ok ()⟩
  ∧ r.shutdown.state.list_agents = r.list_agents
  ∧ (∀ a f j, env.auditorCtor = Except.ok a → env.fixerCtor = Except.ok f →
      env.judgeCtor = Except.ok j → strFalsy env.apiKey = false →
      dictGet "auditor" (AgentRegistry.initializeReg env r).state.agents = some a
      ∧ dictGet "fixer" (AgentRegistry.initializeReg env r).state.agents = some f
      ∧ dictGet "judge" (AgentRegistry.initializeReg env r).state.agents = some j
      ∧ (AgentRegistry.initializeReg env r).state.initialized = true) := by
  refine ⟨?_, ?_, ?_⟩
  · simp [AgentRegistry.shutdown, h]
  · simp [AgentRegistry.shutdown, h]
  · intro a f j ha hf hj hk
    simp only [AgentRegistry.initializeReg, h, hk, ha, hf, hj]
    simp only [Bool.false_eq_true, if_false, if_neg]
    refine ⟨?_, ?_, ?_, ?_⟩
    · rw [dictGet_dictInsert_of_ne "auditor" "judge" (by decide),
        dictGet_dictInsert_of_ne "auditor" "fixer" (by decide),
        dictGet_dictInsert_self]
    · rw [dictGet_dictInsert_of_ne "fixer" "judge" (by decide),
        dictGet_dictInsert_self]
    · rw [dictGet_dictInsert_self]
    · trivial

/-- A registry state with a leftover auditor from a failed `initialize`
attempt: dict non-empty, flag false. -/
def leftoverReg : AgentRegistry Nat := ⟨[("auditor", 99)], false⟩

/-- C10 witness: on the leftover state, `shutdown` is the identity and a
later successful `initialize` rebinds the three names to the new
instances. -/
theorem failed_initialize_leftovers_witness :
    leftoverReg.shutdown = ⟨leftoverReg, [], [], Except.ok ()⟩
  ∧ (dictGet "auditor"
        (AgentRegistry.initializeReg goodEnv leftoverReg).state.agents = some 1
      ∧ dictGet "fixer"
        (AgentRegistry.initializeReg goodEnv leftoverReg).state.agents = some 2
      ∧ dictGet "judge"
        (AgentRegistry.initializeReg goodEnv leftoverReg).state.agents = some 3
      ∧ (AgentRegistry.initializeReg goodEnv leftoverReg).state.initialized =
          true) :=
  ⟨(failed_initialize_leftovers goodEnv leftoverReg rfl (by decide)).1,
    (failed_initialize_leftovers goodEnv leftoverReg rfl (by decide)).2.2
      1 2 3 rfl rfl rfl (by decide)⟩

end RefactoringSwarm
